import Mathlib

/-!
Shallow embedding of the MediSpecs fall-detection alert lifecycle
(frontend home page) and of the authentication session store.

The embedding translates, from the source:
  * the wire data model (`FallEvent`, `EmergencyStatus`, `StreamStatus`);
  * the five conditional render guards of the Fall Detection section of
    `HomePage` (offline, all-clear, waiting, confirmed, emergency);
  * the two poll handlers `checkEmergencyStatus` (5 s cadence) and
    `checkStreamStatus` (10 s cadence), as state-transition functions on the
    relevant slices of the page's React state, parametrised by the outcome
    of the `fetch` call (`ok data` / non-2xx HTTP error / network error);
  * the countdown computation of `FallWaitingAlert` together with the
    helper `getTimeSinceFall`, in a model of JS numbers where `none`
    stands for `NaN` (JS `new Date(s).getTime()` returns `NaN` for an
    unparseable string rather than throwing, and `NaN` propagates through
    `-`, `Math.floor` and `Math.max`);
  * the `AuthContext` session operations `logout` and `refreshMe`, with
    browser `localStorage` modelled as an association list of key/value
    strings.

JavaScript `Set<string>` state (`alertedFalls`, `dismissedFalls`) is
modelled as `List String` with membership via `List.contains`; adding an
element conses it on.  Poll results are applied sequentially (the page is
single-threaded and polls are seconds apart).
-/

namespace MediSpecs

/-- Wire type `UserResponse = null | 'CONFIRMED' | 'NO_RESPONSE'`; `unset`
stands for the JS `null`. -/
inductive UserResponse where
  | unset
  | confirmed
  | noResponse
deriving DecidableEq, Repr

/-- Wire shape `interface FallEvent` from the home page. -/
structure FallEvent where
  timestamp : String
  freefall_g : Float
  impact_g : Float
  inactivity_sec : Float
  user_response : UserResponse
  response_text : Option String
  acknowledged : Bool
  simulated : Option Bool

/-- Acceleration sub-object of `CurrentReadings`. -/
structure Acceleration where
  x : Float
  y : Float
  z : Float
  total : Float

/-- Wire shape `interface CurrentReadings` from the home page. -/
structure CurrentReadings where
  acceleration : Acceleration
  state : String
  time_in_state : Float

/-- Wire shape `interface EmergencyStatus` from the home page. -/
structure EmergencyStatus where
  monitoring : Bool
  current_state : String
  latest_fall : Option FallEvent
  current_readings : Option CurrentReadings

/-- Wire shape `interface StreamStatus` from the home page; the two string-literal
union fields are kept as strings. -/
structure StreamStatus where
  status : String
  camera_running : Bool
  camera_type : String
  has_frame : Bool
  stream_url : String
  message : String
deriving DecidableEq, Repr

/-- JS `emergencyStatus?.monitoring` coerced to a boolean: the optional
chain yields `undefined` (falsy) while no status has been received. -/
def monitoringOf : Option EmergencyStatus → Bool
  | none => false
  | some es => es.monitoring

/-- Guard of the "Fall detection offline" card:
`!emergencyStatus?.monitoring`. -/
def offlineVisible (es : Option EmergencyStatus) : Bool :=
  !(monitoringOf es)

/-- Guard of the "All clear" card:
`emergencyStatus?.monitoring && !emergencyStatus.latest_fall`. -/
def allClearVisible : Option EmergencyStatus → Bool
  | none => false
  | some es => es.monitoring && es.latest_fall.isNone

/-- Common shape of the three fall-alert card guards: a card for response
value `ur` renders when monitoring is on, a latest fall is present, its
`user_response` equals `ur`, and its timestamp has not been dismissed
(`!dismissedFalls.has(...timestamp)`).  The three JSX guards in the source
are textually identical except for the compared `user_response` literal. -/
def cardVisible (ur : UserResponse) (es : Option EmergencyStatus)
    (dismissed : List String) : Bool :=
  match es with
  | none => false
  | some e =>
    e.monitoring &&
      (match e.latest_fall with
       | none => false
       | some f =>
         decide (f.user_response = ur) && !(dismissed.contains f.timestamp))

/-- Guard of STATE 1 `FallWaitingAlert` (`user_response === null`). -/
def waitingVisible (es : Option EmergencyStatus) (dismissed : List String) :
    Bool :=
  cardVisible .unset es dismissed

/-- Guard of STATE 2 `FallConfirmedAlert` (`user_response === 'CONFIRMED'`). -/
def confirmedVisible (es : Option EmergencyStatus) (dismissed : List String) :
    Bool :=
  cardVisible .confirmed es dismissed

/-- Guard of STATE 3 `FallEmergencyAlert` (`user_response === 'NO_RESPONSE'`). -/
def emergencyVisible (es : Option EmergencyStatus) (dismissed : List String) :
    Bool :=
  cardVisible .noResponse es dismissed

/-- Tag naming which (if any) card of the Fall Detection section renders. -/
inductive AlertTag where
  | offline
  | allClear
  | waiting
  | confirmedOk
  | emergency
  | hidden
deriving DecidableEq, Repr

/-- Derived classifier: the render state selected by the five guards, in
their order of appearance in the JSX. -/
def classify (es : Option EmergencyStatus) (dismissed : List String) :
    AlertTag :=
  if offlineVisible es then .offline
  else if allClearVisible es then .allClear
  else if waitingVisible es dismissed then .waiting
  else if confirmedVisible es dismissed then .confirmedOk
  else if emergencyVisible es dismissed then .emergency
  else .hidden

/-! ## Poller state machines -/

/-- Outcome of one `fetch` of the emergency-status endpoint, as seen by the
`try`/`catch` in `checkEmergencyStatus`: a parsed 2xx body, a non-2xx
response (re-thrown as `HTTP <status>` and caught), or a rejected fetch
(network error, caught). -/
inductive PollResult where
  | ok (data : EmergencyStatus)
  | httpError (status : Nat)
  | networkError (msg : String)

/-- Outcome of one `fetch` of the stream-status endpoint. -/
inductive StreamPollResult where
  | ok (data : StreamStatus)
  | httpError (status : Nat)
  | networkError (msg : String)

/-- The slice of `HomePage` React state touched by `checkEmergencyStatus`
and `dismissFall`. -/
structure HomeState where
  emergencyStatus : Option EmergencyStatus
  alertedFalls : List String
  emergencyAlertShown : Bool
  dismissedFalls : List String

/-- The slice of `HomePage` React state touched by `checkStreamStatus`. -/
structure StreamState where
  streamStatus : Option StreamStatus
  isConnected : Bool
  isCheckingStatus : Bool
deriving DecidableEq, Repr

/-- Result of one emergency-status poll tick: the updated state, whether a
GET was actually issued, and the fall id for which the one-shot audio cue
fired on this tick (if any). -/
structure EmergencyTick where
  state : HomeState
  fetchIssued : Bool
  soundPlayed : Option String

/-- Handler `checkEmergencyStatus` from `HomePage`: returns early when
`streamBaseUrl` is the empty string (the falsy value of
`process.env... || ''`); on a caught error keeps the previous state (the
source comment: do not clear existing status on error); on success stores
the status and, when `latest_fall?.user_response === 'NO_RESPONSE'` and the
fall's timestamp is in neither `alertedFalls` nor `dismissedFalls`, shows
the alert, adds the timestamp to `alertedFalls` and plays the audio cue. -/
def checkEmergencyStatus (streamBaseUrl : String) (result : PollResult)
    (s : HomeState) : EmergencyTick :=
  if streamBaseUrl = "" then
    { state := s, fetchIssued := false, soundPlayed := none }
  else
    match result with
    | .httpError _ => { state := s, fetchIssued := true, soundPlayed := none }
    | .networkError _ => { state := s, fetchIssued := true, soundPlayed := none }
    | .ok data =>
      let s1 := { s with emergencyStatus := some data }
      match data.latest_fall with
      | none => { state := s1, fetchIssued := true, soundPlayed := none }
      | some fall =>
        if fall.user_response = .noResponse then
          let fallId := fall.timestamp
          if !(s1.alertedFalls.contains fallId) &&
             !(s1.dismissedFalls.contains fallId) then
            { state := { s1 with
                          emergencyAlertShown := true,
                          alertedFalls := fallId :: s1.alertedFalls },
              fetchIssued := true,
              soundPlayed := some fallId }
          else
            { state := s1, fetchIssued := true, soundPlayed := none }
        else
          { state := s1, fetchIssued := true, soundPlayed := none }

/-- Result of one stream-status poll tick. -/
structure StreamTick where
  state : StreamState
  fetchIssued : Bool
deriving DecidableEq, Repr

/-- Handler `checkStreamStatus` from `HomePage`: with no configured base URL it
only clears the `isCheckingStatus` flag; on success it stores the status
and derives `isConnected = camera_running && has_frame`; on a caught error
it sets `isConnected` to `false` and `streamStatus` to `null`; the
`finally` clears `isCheckingStatus` on every path. -/
def checkStreamStatus (streamBaseUrl : String) (result : StreamPollResult)
    (s : StreamState) : StreamTick :=
  if streamBaseUrl = "" then
    { state := { s with isCheckingStatus := false }, fetchIssued := false }
  else
    match result with
    | .ok data =>
      { state := { streamStatus := some data,
                   isConnected := data.camera_running && data.has_frame,
                   isCheckingStatus := false },
        fetchIssued := true }
    | .httpError _ =>
      { state := { streamStatus := none, isConnected := false,
                   isCheckingStatus := false },
        fetchIssued := true }
    | .networkError _ =>
      { state := { streamStatus := none, isConnected := false,
                   isCheckingStatus := false },
        fetchIssued := true }

/-- Action `dismissFall` from `HomePage`: adds the timestamp to `dismissedFalls`
(`new Set(prev).add(fallTimestamp)`) and hides the modal alert flag. -/
def dismissFall (fallTimestamp : String) (s : HomeState) : HomeState :=
  { s with dismissedFalls := fallTimestamp :: s.dismissedFalls,
           emergencyAlertShown := false }

/-- An event of the page session: a 5-second poll tick with its fetch
outcome, or a user clicking Dismiss on a confirmed/emergency card. -/
inductive HomeEvent where
  | poll (result : PollResult)
  | dismiss (timestamp : String)

/-- One event applied to the home state; returns the fall id whose audio
cue fired, if any (dismissal plays no sound). -/
def stepEvent (streamBaseUrl : String) (e : HomeEvent) (s : HomeState) :
    HomeState × Option String :=
  match e with
  | .poll result =>
    let t := checkEmergencyStatus streamBaseUrl result s
    (t.state, t.soundPlayed)
  | .dismiss ts => (dismissFall ts s, none)

/-- Folds a session's event sequence over the home state, collecting the
ordered list of fall ids for which the audio cue fired. -/
def runEvents (streamBaseUrl : String) (s : HomeState) :
    List HomeEvent → HomeState × List String
  | [] => (s, [])
  | e :: es =>
    let step := stepEvent streamBaseUrl e s
    let rest := runEvents streamBaseUrl step.1 es
    (rest.1, match step.2 with
             | some fallId => fallId :: rest.2
             | none => rest.2)

/-- The mount effect that starts the 5-second emergency poll:
`if (!streamBaseUrl) return;` before `setInterval`, so an interval is
scheduled exactly when the base URL is non-empty. -/
def emergencyPollScheduled (streamBaseUrl : String) : Bool :=
  streamBaseUrl != ""

/-! ## Countdown of the Waiting alert

JS numbers here are integers-or-NaN, modelled as `Option Int` with `none`
for `NaN`.  `new Date(s).getTime()` yields an integer count of
milliseconds for a parseable string and `NaN` for an unparseable one (an
Invalid Date — the constructor does not throw, so the `catch` branch of
`getTimeSinceFall`, which would return `0`, is unreachable for string
inputs).  `NaN` propagates through subtraction, `Math.floor` and
`Math.max`. -/

/-- Helper `getTimeSinceFall` from `HomePage`:
`Math.floor((Date.now() - new Date(ts).getTime()) / 1000)`.
`dateParse` stands for the browser's `new Date(·).getTime()` on the given
string (`none` = `NaN`), `now` for `Date.now()` in milliseconds.
`Math.floor` of an exact quotient is floor division, `Int.fdiv`. -/
def getTimeSinceFall (dateParse : String → Option Int) (now : Int)
    (fallTimestamp : String) : Option Int :=
  (dateParse fallTimestamp).map fun fallTime => Int.fdiv (now - fallTime) 1000

/-- Countdown `Math.max(0, 15 - timeSinceFall)` from `FallWaitingAlert`; both
`15 - NaN` and `Math.max(0, NaN)` are `NaN`. -/
def secondsRemaining : Option Int → Option Int
  | none => none
  | some t => some (max 0 (15 - t))

/-- The countdown value the Waiting card displays for a fall at time `now`
(after the card's one-second refresh effect has run `update()`). -/
def waitingCountdown (dateParse : String → Option Int) (now : Int)
    (fall : FallEvent) : Option Int :=
  secondsRemaining (getTimeSinceFall dateParse now fall.timestamp)

/-- Styling flag `isUrgent = secondsRemaining <= 5` from `FallWaitingAlert`; any JS
comparison with `NaN` is false. -/
def waitingIsUrgent : Option Int → Bool
  | none => false
  | some s => s ≤ 5

/-- The observable output of the Fall Detection section at one instant:
the selected render state, the countdown shown by the Waiting card (absent
when no Waiting card renders), and its urgency styling flag. -/
structure FallSectionView where
  tag : AlertTag
  countdown : Option (Option Int)
  urgent : Bool

/-- The Fall Detection section rendered as a function of the polled status,
the dismissed set and the current time: the guard structure of the JSX,
with the Waiting card's countdown computed from `now`. -/
def renderFallSection (dateParse : String → Option Int) (now : Int)
    (es : Option EmergencyStatus) (dismissed : List String) :
    FallSectionView :=
  match es with
  | none => { tag := classify es dismissed, countdown := none, urgent := false }
  | some e =>
    match e.latest_fall with
    | none =>
      { tag := classify es dismissed, countdown := none, urgent := false }
    | some f =>
      if waitingVisible es dismissed then
        let cd := waitingCountdown dateParse now f
        { tag := classify es dismissed, countdown := some cd,
          urgent := waitingIsUrgent cd }
      else
        { tag := classify es dismissed, countdown := none, urgent := false }

/-! ## Authentication session store (`AuthContext`) -/

/-- Wire type `ApiUser` from the API helper module. -/
structure ApiUser where
  userId : String
  email : String
  name : Option String
deriving DecidableEq, Repr

/-- The fixed `localStorage` key of the cached session. -/
def STORAGE_KEY : String := "medispecs.auth"

/-- Browser `localStorage`, modelled as an association list of
key / serialized-value pairs. -/
def getItem (storage : List (String × String)) (key : String) :
    Option String :=
  (storage.find? fun entry => entry.1 == key).map Prod.snd

/-- Browser `localStorage.setItem`: replaces the value under `key`, or appends. -/
def setItem (storage : List (String × String)) (key value : String) :
    List (String × String) :=
  match storage with
  | [] => [(key, value)]
  | entry :: rest =>
    if entry.1 == key then (key, value) :: rest
    else entry :: setItem rest key value

/-- Browser `localStorage.removeItem`. -/
def removeItem (storage : List (String × String)) (key : String) :
    List (String × String) :=
  storage.filter fun entry => !(entry.1 == key)

/-- Helper `clearStored` from `AuthContext` (in the browser, where `window` is
defined): `localStorage.removeItem(STORAGE_KEY)`. -/
def clearStored (storage : List (String × String)) :
    List (String × String) :=
  removeItem storage STORAGE_KEY

/-- Helper `saveStored` from `AuthContext`: writes the serialized
`{ token, user }` blob under the fixed key; `stringify` stands for
`JSON.stringify` on that pair. -/
def saveStored (stringify : String → ApiUser → String)
    (token : String) (user : ApiUser)
    (storage : List (String × String)) : List (String × String) :=
  setItem storage STORAGE_KEY (stringify token user)

/-- The `AuthProvider` state slice relevant to session clearing. -/
structure AuthSt where
  user : Option ApiUser
  token : Option String
  storage : List (String × String)

/-- Operation `logout` from `AuthContext`: `try { if (token) await fetch logout }`
then, in `finally`, clear user, token and stored session.  `fetchLogout`
is the outcome of the backend call; the returned `Option String` is the
error that `logout()` re-raises after the `finally` block (when the call
was made and threw). -/
def logout (fetchLogout : Except String Unit) (s : AuthSt) :
    AuthSt × Option String :=
  let raised : Option String :=
    match s.token with
    | none => none
    | some _ =>
      match fetchLogout with
      | .ok _ => none
      | .error e => some e
  ({ user := none, token := none, storage := clearStored s.storage }, raised)

/-- Operation `refreshMe` from `AuthContext`: no-op without a token; on a successful
`/auth/me` call stores the fresh user, on a rejected call (invalid token)
clears user, token and stored session. -/
def refreshMe (stringify : String → ApiUser → String)
    (fetchMe : Except String ApiUser) (s : AuthSt) : AuthSt :=
  match s.token with
  | none => s
  | some tok =>
    match fetchMe with
    | .ok u =>
      { s with user := some u,
               storage := saveStored stringify tok u s.storage }
    | .error _ =>
      { user := none, token := none, storage := clearStored s.storage }

/-! ## Concrete sample data (used by witnesses and counterexamples) -/

/-- A fall the backend reports in the `NO_RESPONSE` state. -/
def fallT1 : FallEvent :=
  { timestamp := "t1", freefall_g := 0.4, impact_g := 8.5,
    inactivity_sec := 15.0, user_response := .noResponse,
    response_text := none, acknowledged := false, simulated := none }

/-- A fall still waiting for a response, with a timestamp the browser's
date parser rejects. -/
def fallBadDate : FallEvent :=
  { timestamp := "not-a-date", freefall_g := 0.4, impact_g := 8.5,
    inactivity_sec := 15.0, user_response := .unset,
    response_text := none, acknowledged := false, simulated := none }

/-- A fall still waiting for a response, with a parseable timestamp. -/
def fallOkDate : FallEvent :=
  { timestamp := "2025-01-01T00:00:00.000Z", freefall_g := 0.4,
    impact_g := 8.5, inactivity_sec := 15.0, user_response := .unset,
    response_text := none, acknowledged := false, simulated := none }

/-- Status: monitoring on, latest fall `fallT1` in `NO_RESPONSE`. -/
def statusT1 : EmergencyStatus :=
  { monitoring := true, current_state := "EMERGENCY",
    latest_fall := some fallT1, current_readings := none }

/-- Status: monitoring off while a fall is still attached. -/
def statusOffline : EmergencyStatus :=
  { monitoring := false, current_state := "idle",
    latest_fall := some fallT1, current_readings := none }

/-- A healthy stream status response. -/
def sampleStreamStatus : StreamStatus :=
  { status := "available", camera_running := true,
    camera_type := "picamera2", has_frame := true,
    stream_url := "/stream/live", message := "Camera running" }

/-- Stream state after a successful poll. -/
def connectedStreamState : StreamState :=
  { streamStatus := some sampleStreamStatus, isConnected := true,
    isCheckingStatus := false }

/-- The home state right after page load. -/
def initialHomeState : HomeState :=
  { emergencyStatus := none, alertedFalls := [],
    emergencyAlertShown := false, dismissedFalls := [] }

/-- A home state in which `"t1"` has been dismissed before it was ever
observed in `NO_RESPONSE`. -/
def dismissedT1State : HomeState :=
  { emergencyStatus := none, alertedFalls := [],
    emergencyAlertShown := false, dismissedFalls := ["t1"] }

/-- A home state in which the audio cue has already fired for `"t1"`. -/
def alertedT1State : HomeState :=
  { emergencyStatus := some statusT1, alertedFalls := ["t1"],
    emergencyAlertShown := true, dismissedFalls := [] }

/-- A session in which the backend keeps re-returning the same
`NO_RESPONSE` fall across several poll ticks, with one transient failure. -/
def sampleEvents : List HomeEvent :=
  [.poll (.ok statusT1), .poll (.ok statusT1), .poll (.httpError 500),
   .poll (.networkError "timeout"), .poll (.ok statusT1)]

/-- A signed-in user. -/
def sampleUser : ApiUser :=
  { userId := "u_123", email := "user@example.com", name := some "User" }

/-- An authenticated session with a cached copy in local storage. -/
def sampleAuthSt : AuthSt :=
  { user := some sampleUser, token := some "tok-1",
    storage := [(STORAGE_KEY, "cached-session-blob")] }

/-! ## Helper lemmas about one emergency poll tick -/

/-- A poll tick never changes the dismissed set. -/
theorem tick_dismissed_eq (url : String) (r : PollResult) (s : HomeState) :
    (checkEmergencyStatus url r s).state.dismissedFalls = s.dismissedFalls := by
  unfold checkEmergencyStatus
  repeat' (first | rfl | split | dsimp only)

/-- A poll tick never removes a fall id from the alerted set. -/
theorem tick_alerted_mono (url : String) (r : PollResult) (s : HomeState)
    (ts : String) (h : ts ∈ s.alertedFalls) :
    ts ∈ (checkEmergencyStatus url r s).state.alertedFalls := by
  unfold checkEmergencyStatus
  repeat' (first | exact h | exact List.mem_cons_of_mem _ h | split | dsimp only)

/-- Any fall id newly present in the alerted set after a tick is the one
the audio cue fired for on that tick. -/
theorem tick_alerted_new (url : String) (r : PollResult) (s : HomeState)
    (ts : String)
    (h : ts ∈ (checkEmergencyStatus url r s).state.alertedFalls) :
    ts ∈ s.alertedFalls ∨
      (checkEmergencyStatus url r s).soundPlayed = some ts := by
  revert h
  unfold checkEmergencyStatus
  repeat' (first | split | dsimp only)
  all_goals intro h
  all_goals try exact Or.inl h
  rcases List.mem_cons.mp h with h1 | h2
  · exact Or.inr (by simp [h1])
  · exact Or.inl h2

/-- When the audio cue fires for `ts`, `ts` was in neither the alerted nor
the dismissed set before the tick, and is in the alerted set after it. -/
theorem tick_sound_spec (url : String) (r : PollResult) (s : HomeState)
    (ts : String)
    (h : (checkEmergencyStatus url r s).soundPlayed = some ts) :
    ts ∉ s.alertedFalls ∧ ts ∉ s.dismissedFalls ∧
      ts ∈ (checkEmergencyStatus url r s).state.alertedFalls := by
  revert h
  unfold checkEmergencyStatus
  repeat' (first | split | dsimp only)
  all_goals intro h
  all_goals try exact Option.noConfusion h
  rename_i hguard
  rw [Option.some.injEq] at h
  subst h
  rw [Bool.and_eq_true, Bool.not_eq_true', Bool.not_eq_true'] at hguard
  obtain ⟨ha, hd⟩ := hguard
  exact ⟨by simpa using ha, by simpa using hd, List.mem_cons_self _ _⟩

/-! ## Helper lemmas about one session event -/

/-- No session event ever removes a timestamp from the dismissed set. -/
theorem step_dismissed_mono (url : String) (e : HomeEvent) (s : HomeState)
    (ts : String) (h : ts ∈ s.dismissedFalls) :
    ts ∈ (stepEvent url e s).1.dismissedFalls := by
  cases e with
  | poll r =>
    show ts ∈ (checkEmergencyStatus url r s).state.dismissedFalls
    rw [tick_dismissed_eq]
    exact h
  | dismiss t => exact List.mem_cons_of_mem _ h

/-- No session event ever removes a fall id from the alerted set. -/
theorem step_alerted_mono (url : String) (e : HomeEvent) (s : HomeState)
    (ts : String) (h : ts ∈ s.alertedFalls) :
    ts ∈ (stepEvent url e s).1.alertedFalls := by
  cases e with
  | poll r => exact tick_alerted_mono url r s ts h
  | dismiss t => exact h

/-- When a session event fires the audio cue for `ts`, `ts` was in neither
the alerted nor the dismissed set before it, and is alerted after it. -/
theorem step_sound_spec (url : String) (e : HomeEvent) (s : HomeState)
    (ts : String) (h : (stepEvent url e s).2 = some ts) :
    ts ∉ s.alertedFalls ∧ ts ∉ s.dismissedFalls ∧
      ts ∈ (stepEvent url e s).1.alertedFalls := by
  cases e with
  | poll r => exact tick_sound_spec url r s ts h
  | dismiss t => exact Option.noConfusion h

/-- A fall id alerted after a session event was alerted before it, unless
the audio cue fired for it on that very event. -/
theorem step_alerted_new (url : String) (e : HomeEvent) (s : HomeState)
    (ts : String) (h : ts ∈ (stepEvent url e s).1.alertedFalls) :
    ts ∈ s.alertedFalls ∨ (stepEvent url e s).2 = some ts := by
  cases e with
  | poll r => exact tick_alerted_new url r s ts h
  | dismiss t => exact Or.inl h

/-! ## Helper lemmas about a whole session -/

/-- Once a fall id is in the alerted set, the audio cue never fires for it
again for the rest of the session. -/
theorem runEvents_count_zero (url : String) (events : List HomeEvent) :
    ∀ (s : HomeState) (ts : String), ts ∈ s.alertedFalls →
      ((runEvents url s events).2.count ts) = 0 := by
  induction events with
  | nil => intro s ts _; rfl
  | cons e es ih =>
    intro s ts h
    rw [runEvents]
    dsimp only
    cases hp : (stepEvent url e s).2 with
    | none =>
      exact ih _ ts (step_alerted_mono url e s ts h)
    | some fallId =>
      have hspec := step_sound_spec url e s fallId hp
      rcases eq_or_ne fallId ts with heq | hne
      · subst heq
        exact absurd h hspec.1
      · rw [List.count_cons_of_ne (Ne.symm hne)]
        exact ih _ ts (step_alerted_mono url e s ts h)

/-- Across any session, the audio cue fires at most once per fall id. -/
theorem runEvents_count_le_one (url : String) (events : List HomeEvent) :
    ∀ (s : HomeState) (ts : String),
      ((runEvents url s events).2.count ts) ≤ 1 := by
  induction events with
  | nil => intro s ts; exact Nat.zero_le 1
  | cons e es ih =>
    intro s ts
    rw [runEvents]
    dsimp only
    cases hp : (stepEvent url e s).2 with
    | none => exact ih _ ts
    | some fallId =>
      rcases eq_or_ne fallId ts with heq | hne
      · subst heq
        rw [List.count_cons_self]
        have hz := runEvents_count_zero url es (stepEvent url e s).1 fallId
          (step_sound_spec url e s fallId hp).2.2
        omega
      · rw [List.count_cons_of_ne (Ne.symm hne)]
        exact ih _ ts

/-- A fall id that is dismissed before a session never fires the audio cue
during it. -/
theorem runEvents_count_zero_of_dismissed (url : String)
    (events : List HomeEvent) :
    ∀ (s : HomeState) (ts : String), ts ∈ s.dismissedFalls →
      ((runEvents url s events).2.count ts) = 0 := by
  induction events with
  | nil => intro s ts _; rfl
  | cons e es ih =>
    intro s ts h
    rw [runEvents]
    dsimp only
    cases hp : (stepEvent url e s).2 with
    | none =>
      exact ih _ ts (step_dismissed_mono url e s ts h)
    | some fallId =>
      have hspec := step_sound_spec url e s fallId hp
      have hne : fallId ≠ ts := fun heq => hspec.2.1 (heq ▸ h)
      rw [List.count_cons_of_ne (Ne.symm hne)]
      exact ih _ ts (step_dismissed_mono url e s ts h)

/-- A fall id that is dismissed and not yet alerted before a session is
still not alerted after it. -/
theorem runEvents_not_alerted_of_dismissed (url : String)
    (events : List HomeEvent) :
    ∀ (s : HomeState) (ts : String), ts ∈ s.dismissedFalls →
      ts ∉ s.alertedFalls →
      ts ∉ (runEvents url s events).1.alertedFalls := by
  induction events with
  | nil => intro s ts _ ha; exact ha
  | cons e es ih =>
    intro s ts hd ha
    rw [runEvents]
    dsimp only
    refine ih _ ts (step_dismissed_mono url e s ts hd) ?_
    intro hmem
    rcases step_alerted_new url e s ts hmem with h1 | h2
    · exact ha h1
    · exact (step_sound_spec url e s ts h2).2.1 hd

/-- After `removeItem`, a lookup of the removed key misses. -/
theorem getItem_removeItem (storage : List (String × String)) (key : String) :
    getItem (removeItem storage key) key = none := by
  induction storage with
  | nil => rfl
  | cons a rest ih =>
    rw [removeItem, List.filter_cons]
    cases h : (a.1 == key) with
    | false =>
      simp only [h, Bool.not_false, if_true]
      rw [getItem, List.find?]
      simp only [h]
      exact ih
    | true =>
      simp only [h, Bool.not_true, if_false]
      exact ih

/-- The render state of the Fall Detection section is exactly the
classifier's tag, whatever the current time. -/
theorem renderFallSection_tag (p : String → Option Int) (now : Int)
    (es : Option EmergencyStatus) (d : List String) :
    (renderFallSection p now es d).tag = classify es d := by
  unfold renderFallSection
  repeat' (first | rfl | split)

/-! ## Claims -/

/-- C1: dismissal is keyed by the fall timestamp.  If the latest fall's
timestamp is in the dismissed set, none of the Waiting / Confirmed /
Emergency cards renders; adding a different timestamp `T` to the dismissed
set leaves each card's visibility unchanged; and no session event (poll
result or dismissal) ever removes a timestamp from the dismissed set, so a
dismissal keeps suppressing the same timestamp even when later polls
re-return it. -/
theorem dismissal_keyed_by_timestamp
    (e : EmergencyStatus) (f : FallEvent) (d d₂ : List String)
    (T url : String) (ev : HomeEvent) (s : HomeState)
    (hf : e.latest_fall = some f) (hd : f.timestamp ∈ d)
    (hT : T ≠ f.timestamp) (hs : f.timestamp ∈ s.dismissedFalls) :
    (waitingVisible (some e) d = false ∧
     confirmedVisible (some e) d = false ∧
     emergencyVisible (some e) d = false) ∧
    (waitingVisible (some e) (T :: d₂) = waitingVisible (some e) d₂ ∧
     confirmedVisible (some e) (T :: d₂) = confirmedVisible (some e) d₂ ∧
     emergencyVisible (some e) (T :: d₂) = emergencyVisible (some e) d₂) ∧
    f.timestamp ∈ (stepEvent url ev s).1.dismissedFalls := by
  have hsupp : ∀ ur, cardVisible ur (some e) d = false := by
    intro ur
    simp [cardVisible, hf, hd]
  have hkeep : ∀ ur, cardVisible ur (some e) (T :: d₂) =
      cardVisible ur (some e) d₂ := by
    intro ur
    simp [cardVisible, hf, Ne.symm hT]
  exact ⟨⟨hsupp .unset, hsupp .confirmed, hsupp .noResponse⟩,
         ⟨hkeep .unset, hkeep .confirmed, hkeep .noResponse⟩,
         step_dismissed_mono url ev s f.timestamp hs⟩

/-- Witness for C1 at a concrete status, dismissed sets and session state. -/
theorem dismissal_keyed_by_timestamp_witness :
    (statusT1.latest_fall = some fallT1 ∧ fallT1.timestamp ∈ ["t1"] ∧
     "t2" ≠ fallT1.timestamp ∧
     fallT1.timestamp ∈ dismissedT1State.dismissedFalls) ∧
    ((waitingVisible (some statusT1) ["t1"] = false ∧
      confirmedVisible (some statusT1) ["t1"] = false ∧
      emergencyVisible (some statusT1) ["t1"] = false) ∧
     (waitingVisible (some statusT1) ("t2" :: []) =
        waitingVisible (some statusT1) [] ∧
      confirmedVisible (some statusT1) ("t2" :: []) =
        confirmedVisible (some statusT1) [] ∧
      emergencyVisible (some statusT1) ("t2" :: []) =
        emergencyVisible (some statusT1) []) ∧
     fallT1.timestamp ∈
       (stepEvent "u" (.poll (.ok statusT1)) dismissedT1State).1.dismissedFalls) :=
  ⟨⟨rfl, by decide, by decide, by decide⟩,
   dismissal_keyed_by_timestamp statusT1 fallT1 ["t1"] [] "t2" "u"
     (.poll (.ok statusT1)) dismissedT1State rfl (by decide) (by decide)
     (by decide)⟩

/-- C2 counterexample: the claim that BOTH pollers retain the
previously-known state on a failed poll is false for the stream-status
poller — on a network error its catch block resets `streamStatus` to
`null` and `isConnected` to `false`, losing the previously-known
connected state. -/
theorem stream_poller_resets_on_error :
    (checkStreamStatus "http://glasses.local"
        (.networkError "connection refused") connectedStreamState).state ≠
      connectedStreamState := by
  decide

/-- C2 (amended): on a failed poll (non-2xx or network error) the
emergency-status poller swallows the failure and retains its state
unchanged (and plays no sound); the stream-status poller also swallows the
failure but resets its state to
`streamStatus = null, isConnected = false, isCheckingStatus = false`. -/
theorem poll_failure_state_handling (url msg : String) (code : Nat)
    (s : HomeState) (t : StreamState) (h : url ≠ "") :
    (checkEmergencyStatus url (.httpError code) s).state = s ∧
    (checkEmergencyStatus url (.networkError msg) s).state = s ∧
    (checkEmergencyStatus url (.httpError code) s).soundPlayed = none ∧
    (checkEmergencyStatus url (.networkError msg) s).soundPlayed = none ∧
    (checkStreamStatus url (.httpError code) t).state =
      { streamStatus := none, isConnected := false,
        isCheckingStatus := false } ∧
    (checkStreamStatus url (.networkError msg) t).state =
      { streamStatus := none, isConnected := false,
        isCheckingStatus := false } := by
  refine ⟨?_, ?_, ?_, ?_, ?_, ?_⟩ <;>
    simp [checkEmergencyStatus, checkStreamStatus, h]

/-- Witness for C2's amended statement at a concrete URL and states. -/
theorem poll_failure_state_handling_witness :
    ("http://glasses.local" ≠ "") ∧
    ((checkEmergencyStatus "http://glasses.local" (.httpError 500)
        initialHomeState).state = initialHomeState ∧
     (checkEmergencyStatus "http://glasses.local"
        (.networkError "connection refused") initialHomeState).state =
        initialHomeState ∧
     (checkEmergencyStatus "http://glasses.local" (.httpError 500)
        initialHomeState).soundPlayed = none ∧
     (checkEmergencyStatus "http://glasses.local"
        (.networkError "connection refused") initialHomeState).soundPlayed =
        none ∧
     (checkStreamStatus "http://glasses.local" (.httpError 500)
        connectedStreamState).state =
       { streamStatus := none, isConnected := false,
         isCheckingStatus := false } ∧
     (checkStreamStatus "http://glasses.local"
        (.networkError "connection refused") connectedStreamState).state =
       { streamStatus := none, isConnected := false,
         isCheckingStatus := false }) :=
  ⟨by decide,
   poll_failure_state_handling "http://glasses.local" "connection refused"
     500 initialHomeState connectedStreamState (by decide)⟩

/-- C3: across any session (any sequence of poll outcomes and dismiss
actions, from any starting state) the one-shot audio cue fires at most
once per fall timestamp; and once a timestamp is in the alerted set, no
later tick plays the sound for it again. -/
theorem alert_sound_at_most_once_per_timestamp (url : String)
    (events : List HomeEvent) (s s₂ : HomeState) (ts ts₂ : String)
    (h : ts₂ ∈ s₂.alertedFalls) :
    ((runEvents url s events).2.count ts) ≤ 1 ∧
    ((runEvents url s₂ events).2.count ts₂) = 0 :=
  ⟨runEvents_count_le_one url events s ts,
   runEvents_count_zero url events s₂ ts₂ h⟩

/-- Witness for C3 on a session whose backend keeps re-returning the same
`NO_RESPONSE` fall. -/
theorem alert_sound_at_most_once_per_timestamp_witness :
    ("t1" ∈ alertedT1State.alertedFalls) ∧
    (((runEvents "http://glasses.local" initialHomeState
        sampleEvents).2.count "t1") ≤ 1 ∧
     ((runEvents "http://glasses.local" alertedT1State
        sampleEvents).2.count "t1") = 0) :=
  ⟨by decide,
   alert_sound_at_most_once_per_timestamp "http://glasses.local"
     sampleEvents initialHomeState alertedT1State "t1" "t1" (by decide)⟩

/-- C4 (code evaluated at the failing input): with a fall timestamp the
browser's date parser rejects (`new Date` yields an Invalid Date whose
`getTime()` is `NaN` — it does not throw, so the `catch` returning `0` in
`getTimeSinceFall` is dead code), the Waiting card's countdown evaluates
to `NaN` (`none`), not to the claimed `max(0, 15 − 0) = 15`; with a
parseable timestamp the countdown does equal
`max(0, 15 − floor((now − fallTime)/1000))`. -/
theorem waiting_countdown_nan_on_unparseable_timestamp :
    waitingCountdown (fun _ => none) 1735689605500 fallBadDate = none ∧
    waitingCountdown (fun _ => none) 1735689605500 fallBadDate ≠ some 15 ∧
    waitingCountdown (fun _ => some 1735689600000) 1735689605500 fallOkDate =
      some (max 0 (15 - Int.fdiv (1735689605500 - 1735689600000) 1000)) ∧
    waitingCountdown (fun _ => some 1735689600000) 1735689605500 fallOkDate =
      some 10 := by
  refine ⟨rfl, by simp [waitingCountdown, getTimeSinceFall, fallBadDate,
    secondsRemaining], by decide, by decide⟩

/-- C5: whenever monitoring is off — including before any status has been
received — the classifier yields Offline, the offline card renders, and no
other card does, whatever the latest fall and the dismissed set. -/
theorem offline_when_not_monitoring (es : Option EmergencyStatus)
    (dismissed : List String) (h : monitoringOf es = false) :
    classify es dismissed = .offline ∧
    offlineVisible es = true ∧
    allClearVisible es = false ∧
    waitingVisible es dismissed = false ∧
    confirmedVisible es dismissed = false ∧
    emergencyVisible es dismissed = false := by
  have hoff : offlineVisible es = true := by simp [offlineVisible, h]
  have hcard : ∀ ur, cardVisible ur es dismissed = false := by
    intro ur
    rcases es with _ | e
    · rfl
    · have hm : e.monitoring = false := h
      simp [cardVisible, hm]
  have hclear : allClearVisible es = false := by
    rcases es with _ | e
    · rfl
    · have hm : e.monitoring = false := h
      simp [allClearVisible, hm]
  exact ⟨by simp [classify, hoff], hoff, hclear, hcard .unset,
         hcard .confirmed, hcard .noResponse⟩

/-- Witness for C5: monitoring off while an undismissed `NO_RESPONSE` fall
is still attached to the status. -/
theorem offline_when_not_monitoring_witness :
    (monitoringOf (some statusOffline) = false) ∧
    (classify (some statusOffline) [] = .offline ∧
     offlineVisible (some statusOffline) = true ∧
     allClearVisible (some statusOffline) = false ∧
     waitingVisible (some statusOffline) [] = false ∧
     confirmedVisible (some statusOffline) [] = false ∧
     emergencyVisible (some statusOffline) [] = false) :=
  ⟨rfl, offline_when_not_monitoring (some statusOffline) [] rfl⟩

/-- C6: the five render-branch guards of the Fall Detection section are
pairwise disjoint — for every status (including none received yet) and
dismissed set at most one of the Offline, All-clear, Waiting, Confirmed
and Emergency cards is visible. -/
theorem render_states_mutually_exclusive (es : Option EmergencyStatus)
    (dismissed : List String) :
    List.countP (fun b => b)
      [offlineVisible es, allClearVisible es,
       waitingVisible es dismissed, confirmedVisible es dismissed,
       emergencyVisible es dismissed] ≤ 1 := by
  rcases es with _ | ⟨mon, cs, lf, cr⟩
  · simp [offlineVisible, monitoringOf, allClearVisible, waitingVisible,
      confirmedVisible, emergencyVisible, cardVisible]
  · cases mon with
    | false =>
      simp [offlineVisible, monitoringOf, allClearVisible, waitingVisible,
        confirmedVisible, emergencyVisible, cardVisible]
    | true =>
      rcases lf with _ | ⟨ts, fg, ig, isec, ur, rt, ack, sim⟩
      · simp [offlineVisible, monitoringOf, allClearVisible, waitingVisible,
          confirmedVisible, emergencyVisible, cardVisible]
      · by_cases hm : ts ∈ dismissed <;> cases ur <;>
          simp [offlineVisible, monitoringOf, allClearVisible,
            waitingVisible, confirmedVisible, emergencyVisible,
            cardVisible, hm]

/-- C7: the selected render state is independent of the current time — for
a fixed status and dismissed set, evaluating the Fall Detection section at
any two values of `now` yields the same state tag; only the countdown and
urgency styling read the clock, so the countdown reaching 0 cannot move
Waiting to Emergency without a new poll result. -/
theorem state_tag_independent_of_now (dateParse : String → Option Int)
    (now₁ now₂ : Int) (es : Option EmergencyStatus) (dismissed : List String) :
    (renderFallSection dateParse now₁ es dismissed).tag =
      (renderFallSection dateParse now₂ es dismissed).tag := by
  rw [renderFallSection_tag, renderFallSection_tag]

/-- C8: after `logout` — whether or not the backend logout call threw —
and after `refreshMe` observes a rejected whoami check while a token is
held, user and token are `null` and the fixed local-storage key
`medispecs.auth` has been removed. -/
theorem logout_and_rejected_whoami_clear_session
    (r : Except String Unit) (s : AuthSt)
    (stringify : String → ApiUser → String) (err tok : String) (s₂ : AuthSt)
    (htok : s₂.token = some tok) :
    ((logout r s).1.user = none ∧ (logout r s).1.token = none ∧
     getItem (logout r s).1.storage STORAGE_KEY = none) ∧
    ((refreshMe stringify (.error err) s₂).user = none ∧
     (refreshMe stringify (.error err) s₂).token = none ∧
     getItem (refreshMe stringify (.error err) s₂).storage STORAGE_KEY =
       none) := by
  have hre : refreshMe stringify (.error err) s₂ =
      { user := none, token := none, storage := clearStored s₂.storage } := by
    unfold refreshMe
    rw [htok]
  refine ⟨⟨rfl, rfl, getItem_removeItem s.storage STORAGE_KEY⟩, ?_⟩
  rw [hre]
  exact ⟨rfl, rfl, getItem_removeItem s₂.storage STORAGE_KEY⟩

/-- Witness for C8 at a concrete authenticated session. -/
theorem logout_and_rejected_whoami_clear_session_witness :
    (sampleAuthSt.token = some "tok-1") ∧
    (((logout (.error "network down") sampleAuthSt).1.user = none ∧
      (logout (.error "network down") sampleAuthSt).1.token = none ∧
      getItem (logout (.error "network down") sampleAuthSt).1.storage
        STORAGE_KEY = none) ∧
     ((refreshMe (fun _ _ => "") (.error "HTTP 401") sampleAuthSt).user =
        none ∧
      (refreshMe (fun _ _ => "") (.error "HTTP 401") sampleAuthSt).token =
        none ∧
      getItem (refreshMe (fun _ _ => "") (.error "HTTP 401")
        sampleAuthSt).storage STORAGE_KEY = none)) :=
  ⟨rfl,
   logout_and_rejected_whoami_clear_session (.error "network down")
     sampleAuthSt (fun _ _ => "") "HTTP 401" "tok-1" sampleAuthSt rfl⟩

/-- C9: with no configured stream base URL (the empty string), an
emergency-status tick issues no fetch, changes nothing, raises nothing and
plays no sound, and the polling effect schedules no interval — absence of
configuration is a steady state, not a failure. -/
theorem unconfigured_poller_inert (r : PollResult) (s : HomeState) :
    checkEmergencyStatus "" r s =
      { state := s, fetchIssued := false, soundPlayed := none } ∧
    emergencyPollScheduled "" = false :=
  ⟨rfl, rfl⟩

/-- C10: a timestamp already in the dismissed set when first observed in
`NO_RESPONSE` never fires the audio cue and is never added to the alerted
set, over any sequence of session events. -/
theorem dismissed_timestamp_never_plays_audio (url : String)
    (events : List HomeEvent) (s : HomeState) (ts : String)
    (hd : ts ∈ s.dismissedFalls) (ha : ts ∉ s.alertedFalls) :
    ((runEvents url s events).2.count ts) = 0 ∧
    ts ∉ (runEvents url s events).1.alertedFalls :=
  ⟨runEvents_count_zero_of_dismissed url events s ts hd,
   runEvents_not_alerted_of_dismissed url events s ts hd ha⟩

/-- Witness for C10: `"t1"` dismissed before the backend ever reported it
as `NO_RESPONSE`, then a session of polls re-returning it. -/
theorem dismissed_timestamp_never_plays_audio_witness :
    ("t1" ∈ dismissedT1State.dismissedFalls) ∧
    ("t1" ∉ dismissedT1State.alertedFalls) ∧
    (((runEvents "http://glasses.local" dismissedT1State
        sampleEvents).2.count "t1") = 0 ∧
     "t1" ∉ (runEvents "http://glasses.local" dismissedT1State
        sampleEvents).1.alertedFalls) :=
  ⟨by decide, by decide,
   dismissed_timestamp_never_plays_audio "http://glasses.local"
     sampleEvents dismissedT1State "t1" (by decide) (by decide)⟩

end MediSpecs
